import Mathlib

/-!
Verification of the butterfly-bot release tooling.

The repository has two Python entry points:
* `.github/scripts/generate_homebrew_formula.py`: `render_formula` is a single
  f-string template over three caller-supplied strings (version, url, sha256);
  `main` parses four required CLI arguments and writes the rendered text.
* `scripts/generate_icons.py`: resizes one master icon into eight fixed sizes.

`render_formula` is embedded below as explicit concatenation of the literal
segments of the source f-string.  Python f-string semantics are applied
exactly once, at embedding time: `\x7b\x7b` / `\x7d\x7d` escapes in the source denote
literal brace characters in the rendered text (so the downstream Homebrew
interpolation tokens such as `#\x7bpkgshare\x7d` and the shell expansions such as
`$\x7bHOME\x7d` appear in these segments in their rendered single-brace form), and
the three replacement fields `\x7burl\x7d`, `\x7bsha256\x7d`, `\x7bversion\x7d` become the three
insertion points of `render_formula`.  Brace characters inside Lean string
literals are written with `\x7b` / `\x7d` escapes throughout.
-/

set_option maxRecDepth 4000

/-- Literal segment of the f-string: the three lines before the url field. -/
def segDesc : String :=
  "class ButterflyBot < Formula\n" ++
  "  desc \"Local-first AI assistant with CLI, daemon, desktop UI, and WASM tools\"\n" ++
  "  homepage \"https://github.com/truemagic-coder/butterfly-bot\"\n"

/-- Literal f-string segment before the `url` insertion point. -/
def segHead : String := segDesc ++ "  url \""

/-- Literal f-string segment between the `url` and `sha256` insertion points. -/
def segUrlToSha : String := "\"\n" ++ "  sha256 \""

/-- Literal f-string segment between the `sha256` and `version` insertion points. -/
def segShaToVer : String := "\"\n" ++ "  version \""

/-- Template text from the license line through the opening of the first
launcher heredoc (`(bin/"butterfly-bot").write <<~EOS`). -/
def segInstall : String :=
  "  license \"MIT\"\n" ++
  "  head \"https://github.com/truemagic-coder/butterfly-bot.git\", branch: \"main\"\n" ++
  "\n" ++
  "  depends_on \"pkgconf\" => :build\n" ++
  "  depends_on \"rust\" => :build\n" ++
  "  depends_on \"protobuf\" => :build\n" ++
  "\n" ++
  "  def install\n" ++
  "    system \"cargo\", \"build\", \"--release\", \"--locked\", \"--bin\", \"butterfly-bot\", \"--bin\", \"butterfly-botd\"\n" ++
  "\n" ++
  "    libexec.install \"target/release/butterfly-bot\"\n" ++
  "    libexec.install \"target/release/butterfly-botd\"\n" ++
  "\n" ++
  "    wasm_modules = Dir[\"wasm/*_tool.wasm\"]\n" ++
  "    odie \"No wasm tool modules found under wasm/\" if wasm_modules.empty?\n" ++
  "    pkgshare.install wasm_modules\n" ++
  "\n" ++
  "    (bin/\"butterfly-bot\").write <<~EOS\n"

/-- The first embedded launcher-script heredoc body (bin/butterfly-bot),
verbatim from the template (rendered form, lines indented six spaces). -/
def launcherBot : String :=
  "      #!/bin/bash\n" ++
  "      set -euo pipefail\n" ++
  "\n" ++
  "      APP_ROOT=\"$\x7bHOME\x7d/.butterfly-bot\"\n" ++
  "      mkdir -p \"$\x7bAPP_ROOT\x7d\" \"$\x7bAPP_ROOT\x7d/data\"\n" ++
  "\n" ++
  "      if [[ -e \"$\x7bAPP_ROOT\x7d/wasm\" && ! -L \"$\x7bAPP_ROOT\x7d/wasm\" ]]; then\n" ++
  "        rm -rf \"$\x7bAPP_ROOT\x7d/wasm\"\n" ++
  "      fi\n" ++
  "      if [[ ! -L \"$\x7bAPP_ROOT\x7d/wasm\" ]]; then\n" ++
  "        ln -sfn \"#\x7bpkgshare\x7d\" \"$\x7bAPP_ROOT\x7d/wasm\"\n" ++
  "      fi\n" ++
  "\n" ++
  "      cd \"$\x7bAPP_ROOT\x7d\"\n" ++
  "      export BUTTERFLY_BOT_DB=\"$\x7bBUTTERFLY_BOT_DB:-$\x7bAPP_ROOT\x7d/data/butterfly-bot.db\x7d\"\n" ++
  "\n" ++
  "      exec \"#\x7blibexec\x7d/butterfly-bot\" \"$@\"\n"

/-- Template text between the two launcher heredoc bodies. -/
def segBetweenLaunchers : String :=
  "    EOS\n" ++
  "\n" ++
  "    (bin/\"butterfly-botd\").write <<~EOS\n"

/-- The second embedded launcher-script heredoc body (bin/butterfly-botd),
verbatim from the template (rendered form, lines indented six spaces). -/
def launcherBotd : String :=
  "      #!/bin/bash\n" ++
  "      set -euo pipefail\n" ++
  "\n" ++
  "      APP_ROOT=\"$\x7bHOME\x7d/.butterfly-bot\"\n" ++
  "      mkdir -p \"$\x7bAPP_ROOT\x7d\" \"$\x7bAPP_ROOT\x7d/data\"\n" ++
  "\n" ++
  "      if [[ -e \"$\x7bAPP_ROOT\x7d/wasm\" && ! -L \"$\x7bAPP_ROOT\x7d/wasm\" ]]; then\n" ++
  "        rm -rf \"$\x7bAPP_ROOT\x7d/wasm\"\n" ++
  "      fi\n" ++
  "      if [[ ! -L \"$\x7bAPP_ROOT\x7d/wasm\" ]]; then\n" ++
  "        ln -sfn \"#\x7bpkgshare\x7d\" \"$\x7bAPP_ROOT\x7d/wasm\"\n" ++
  "      fi\n" ++
  "\n" ++
  "      cd \"$\x7bAPP_ROOT\x7d\"\n" ++
  "      export BUTTERFLY_BOT_DB=\"$\x7bBUTTERFLY_BOT_DB:-$\x7bAPP_ROOT\x7d/data/butterfly-bot.db\x7d\"\n" ++
  "\n" ++
  "      exec \"#\x7blibexec\x7d/butterfly-botd\" --db \"$\x7bBUTTERFLY_BOT_DB\x7d\" \"$@\"\n"

/-- Template text after the second launcher heredoc body, to the end of the
template (chmod lines, caveats block, test block). -/
def segFooter : String :=
  "    EOS\n" ++
  "\n" ++
  "    chmod 0755, bin/\"butterfly-bot\"\n" ++
  "    chmod 0755, bin/\"butterfly-botd\"\n" ++
  "  end\n" ++
  "\n" ++
  "  def caveats\n" ++
  "    <<~EOS\n" ++
  "      Installed commands:\n" ++
  "        butterfly-bot    (primary desktop app)\n" ++
  "        butterfly-botd   (daemon launcher)\n" ++
  "\n" ++
  "      Runtime data directory:\n" ++
  "        ~/.butterfly-bot\n" ++
  "\n" ++
  "      WASM tool modules are installed at:\n" ++
  "        #\x7bpkgshare\x7d\n" ++
  "    EOS\n" ++
  "  end\n" ++
  "\n" ++
  "  test do\n" ++
  "    output = shell_output(\"#\x7bbin\x7d/butterfly-bot --help\")\n" ++
  "    assert_match \"ButterFly Bot CLI\", output\n" ++
  "  end\n" ++
  "end\n"

/-- Everything of the template after the closing quote of the version field. -/
def segBody : String :=
  segInstall ++ launcherBot ++ segBetweenLaunchers ++ launcherBotd ++ segFooter

/-- Literal f-string segment after the `version` insertion point (closing
quote of the version field, then the rest of the template). -/
def segTail : String := "\"\n" ++ segBody

/-- Embedding of `render_formula(version, url, sha256)` from
`.github/scripts/generate_homebrew_formula.py`: the source f-string is the
concatenation of its literal segments with the three replacement fields
inserted, in template order url, sha256, version. -/
def render_formula (version url sha256 : String) : String :=
  segHead ++ url ++ segUrlToSha ++ sha256 ++ segShaToVer ++ version ++ segTail

/-- The shared body of the two launcher scripts: every line of the heredoc
bodies up to but excluding the final exec line. -/
def launcherCommon : String :=
  "      #!/bin/bash\n" ++
  "      set -euo pipefail\n" ++
  "\n" ++
  "      APP_ROOT=\"$\x7bHOME\x7d/.butterfly-bot\"\n" ++
  "      mkdir -p \"$\x7bAPP_ROOT\x7d\" \"$\x7bAPP_ROOT\x7d/data\"\n" ++
  "\n" ++
  "      if [[ -e \"$\x7bAPP_ROOT\x7d/wasm\" && ! -L \"$\x7bAPP_ROOT\x7d/wasm\" ]]; then\n" ++
  "        rm -rf \"$\x7bAPP_ROOT\x7d/wasm\"\n" ++
  "      fi\n" ++
  "      if [[ ! -L \"$\x7bAPP_ROOT\x7d/wasm\" ]]; then\n" ++
  "        ln -sfn \"#\x7bpkgshare\x7d\" \"$\x7bAPP_ROOT\x7d/wasm\"\n" ++
  "      fi\n" ++
  "\n" ++
  "      cd \"$\x7bAPP_ROOT\x7d\"\n" ++
  "      export BUTTERFLY_BOT_DB=\"$\x7bBUTTERFLY_BOT_DB:-$\x7bAPP_ROOT\x7d/data/butterfly-bot.db\x7d\"\n" ++
  "\n"

/-- Final exec line of the butterfly-bot launcher. -/
def execLineBot : String :=
  "      exec \"#\x7blibexec\x7d/butterfly-bot\" \"$@\"\n"

/-- Final exec line of the butterfly-botd launcher. -/
def execLineBotd : String :=
  "      exec \"#\x7blibexec\x7d/butterfly-botd\" --db \"$\x7bBUTTERFLY_BOT_DB\x7d\" \"$@\"\n"

/-- Number of occurrences of `pat` in `s`: the number of suffixes of `s`
that start with `pat`. -/
def countOccs (pat s : String) : Nat :=
  (s.data.tails.filter (fun t => List.isPrefixOf pat.data t)).length

/-- `pat` occurs somewhere in `s` (as a contiguous substring). -/
def strOccurs (pat s : String) : Prop := pat.data <:+: s.data

/-- A positive occurrence count yields an occurrence. -/
theorem countOccs_pos_strOccurs (pat s : String) (h : 0 < countOccs pat s) :
    strOccurs pat s := by
  obtain ⟨t, ht⟩ := List.exists_mem_of_length_pos h
  obtain ⟨htails, hpref⟩ := List.mem_filter.mp ht
  exact List.IsInfix.trans
    ( List.IsPrefix.isInfix (List.isPrefixOf_iff_prefix.mp hpref))
    ( List.IsSuffix.isInfix ((List.mem_tails t s.data).mp htails))

/-- An occurrence in the right part of a concatenation is an occurrence in
the whole. -/
theorem strOccurs_append_right (pat a b : String) (h : strOccurs pat b) :
    strOccurs pat (a ++ b) := by
  unfold strOccurs
  rw [String.data_append]
  exact List.IsInfix.trans h ( List.IsSuffix.isInfix (List.suffix_append a.data b.data))

/-- Sanity: the placeholder token occurs in the constant tail. -/
example : 0 < countOccs "#\x7bpkgshare\x7d" segTail := by decide

/-! ### CLI adapter of the formula generator

`main` in `.github/scripts/generate_homebrew_formula.py` builds an argparse
parser with four required arguments (`--version`, `--url`, `--sha256`,
`--output`), parses, renders, creates the output's parent directories and
writes the rendered text.  The embedding models the argument store as four
optional strings (an absent flag is `none`); argparse's behaviour on a
missing required argument is to report it and exit with a non-zero status
before `main` resumes, so parsing is a total function into `Except`. -/

/-- The four CLI argument slots of the formula generator. -/
structure CliArgs where
  version : Option String
  url : Option String
  sha256 : Option String
  output : Option String

/-- Argument parsing: all four flags are `required=True`; a missing one is
reported and aborts before any rendering. -/
def parseArgs (a : CliArgs) : Except String (String × String × String × String) :=
  match a.version with
  | none => Except.error "the following arguments are required: --version"
  | some v =>
    match a.url with
    | none => Except.error "the following arguments are required: --url"
    | some u =>
      match a.sha256 with
      | none => Except.error "the following arguments are required: --sha256"
      | some s =>
        match a.output with
        | none => Except.error "the following arguments are required: --output"
        | some o => Except.ok (v, u, s, o)

/-- One file written to disk (path and full content). -/
structure FsWrite where
  path : String
  content : String

/-- Embedding of `main`: parse, then render, then write the rendered text to
the output path.  The single filesystem write happens only in the success
branch, after all four arguments parsed. -/
def mainFormula (a : CliArgs) : Except String FsWrite :=
  match parseArgs a with
  | Except.error e => Except.error e
  | Except.ok (v, u, s, o) => Except.ok ⟨o, render_formula v u s⟩

/-- Process exit status: argparse exits with status 2 on a parse error;
a completed run exits 0. -/
def exitCode : Except String FsWrite → Nat
  | Except.error _ => 2
  | Except.ok _ => 0

/-! ### Icon pipeline

`scripts/generate_icons.py` checks that the fixed source icon
`assets/icon.png` exists (raising `FileNotFoundError` naming the path
otherwise, before any directory creation or write), converts it to RGBA,
and for each of the eight fixed sizes resizes it to a square and saves a
PNG under `assets/icons/hicolor/<size>x<size>/apps/butterfly-bot.png`,
finally printing `Generated 8 icon sizes from <source>`.  The embedding
abstracts a PIL image to its width, height and mode (pixel data and the
PNG byte encoding are out of scope), and paths are taken relative to the
repository root (the script resolves them against its own location). -/

/-- Abstraction of a PIL image: dimensions and colour mode. -/
structure PILImage where
  width : Nat
  height : Nat
  mode : String

/-- `Image.convert("RGBA")`: same dimensions, mode forced to RGBA. -/
def convertRGBA (i : PILImage) : PILImage := { i with mode := "RGBA" }

/-- `Image.resize((w, h), LANCZOS)`: requested dimensions, mode kept. -/
def pilResize (i : PILImage) (w h : Nat) : PILImage :=
  { width := w, height := h, mode := i.mode }

/-- The fixed list of target edge lengths. -/
def iconSizes : List Nat := [16, 24, 32, 48, 64, 128, 256, 512]

/-- The fixed source icon path (relative to the repository root). -/
def sourceIconPath : String := "assets/icon.png"

/-- Output path for one target size. -/
def iconOutputPath (size : Nat) : String :=
  "assets/icons/hicolor/" ++ toString size ++ "x" ++ toString size ++
    "/apps/butterfly-bot.png"

/-- One saved image file: path, image, and save format. -/
structure SavedIcon where
  path : String
  image : PILImage
  format : String

/-- Embedding of the icon pipeline's `main`: fail fast when the source icon
is missing (no writes at all); otherwise produce one saved square PNG per
target size and report the count of sizes generated. -/
def generate_icons (sourceExists : Bool) (src : PILImage) :
    Except String (List SavedIcon × String) :=
  if sourceExists then
    let base := convertRGBA src
    Except.ok
      (iconSizes.map (fun size =>
        { path := iconOutputPath size
          image := pilResize base size size
          format := "PNG" }),
       "Generated " ++ toString iconSizes.length ++ " icon sizes from " ++
         sourceIconPath)
  else
    Except.error ("Missing source icon: " ++ sourceIconPath)

/-! ## Claims -/

/-- C1: for every input triple (version, url, checksum), the rendered output
contains the downstream package manager's unresolved placeholder tokens —
its references to its own install/share directories, i.e. the pkgshare,
libexec and bin interpolation tokens — verbatim, whatever the values of
version, url and checksum are (they live in the constant tail segment of
the template, which does not depend on the inputs). -/
theorem render_preserves_downstream_placeholders (v u c : String) :
    strOccurs "#\x7bpkgshare\x7d" (render_formula v u c) ∧
    strOccurs "#\x7blibexec\x7d" (render_formula v u c) ∧
    strOccurs "#\x7bbin\x7d" (render_formula v u c) := by
  have lift : ∀ pat : String, 0 < countOccs pat segTail →
      strOccurs pat (render_formula v u c) := by
    intro pat h
    unfold render_formula
    exact strOccurs_append_right pat _ _ (countOccs_pos_strOccurs pat segTail h)
  exact ⟨lift _ (by decide), lift _ (by decide), lift _ (by decide)⟩

/-- C2: for every input triple, including strings containing quotes, spaces
or placeholder-like syntax, the rendered output carries the supplied url,
checksum and version each at exactly one insertion point, inside its own
field line: the url between `url "` and the closing quote, the checksum
between `sha256 "` and the closing quote, the version between `version "`
and the closing quote; everything else is the fixed template text. -/
theorem render_substitution_fidelity (v u c : String) :
    render_formula v u c =
      segDesc ++
      ("  url \"" ++ (u ++
      ("\"\n  sha256 \"" ++ (c ++
      ("\"\n  version \"" ++ (v ++
      ("\"\n" ++ segBody))))))) := by
  simp [render_formula, segHead, segUrlToSha, segShaToVer, segTail,
    String.append_assoc]

/-- C3: the output equals one fixed constant template with the three
caller-supplied strings inserted verbatim at their fixed positions, url
first, then sha256, then version; the renderer performs no validation,
escaping or normalization, so the output length is exactly the constant
template length plus the lengths of the three inputs. -/
theorem render_fixed_template (v u c : String) :
    render_formula v u c =
      segHead ++ u ++ segUrlToSha ++ c ++ segShaToVer ++ v ++ segTail ∧
    (render_formula v u c).length =
      u.length + c.length + v.length + (render_formula "" "" "").length := by
  refine ⟨rfl, ?_⟩
  simp [render_formula, String.length_append]
  omega

/-- C4: rendering is deterministic — two calls with identical inputs yield
identical output; the result depends on nothing but the three inputs. -/
theorem render_deterministic (v₁ u₁ c₁ v₂ u₂ c₂ : String)
    (hv : v₁ = v₂) (hu : u₁ = u₂) (hc : c₁ = c₂) :
    render_formula v₁ u₁ c₁ = render_formula v₂ u₂ c₂ := by
  rw [hv, hu, hc]

/-- Witness for C4 at a concrete input triple. -/
theorem render_deterministic_witness :
    render_formula "1.0.0" "https://example.com/a.tar.gz" "deadbeef" =
      render_formula "1.0.0" "https://example.com/a.tar.gz" "deadbeef" :=
  render_deterministic "1.0.0" "https://example.com/a.tar.gz" "deadbeef"
    "1.0.0" "https://example.com/a.tar.gz" "deadbeef" rfl rfl rfl

/-- C5: every rendered artifact embeds exactly two launcher-script heredoc
blocks (two `.write <<~EOS` openings, two `#!/bin/bash` shebangs, both in
the constant tail); each block carries the home-directory bootstrap (the
`APP_ROOT` assignment and the `mkdir -p` of the app home and its data
subdirectory), the wasm symlink maintenance (`ln -sfn` to the package
share directory), and one exec invocation line; the daemon block's exec
line carries a `--db` flag while the primary block has no `--db` at all. -/
theorem render_two_launcher_blocks (v u c : String) :
    render_formula v u c =
      (segHead ++ u ++ segUrlToSha ++ c ++ segShaToVer ++ v ++
        ("\"\n" ++ segInstall)) ++ launcherBot ++
        (segBetweenLaunchers ++ (launcherBotd ++ segFooter)) ∧
    countOccs ".write <<~EOS" segTail = 2 ∧
    countOccs "#!/bin/bash" segTail = 2 ∧
    countOccs "APP_ROOT=\"$\x7bHOME\x7d/.butterfly-bot\"" launcherBot = 1 ∧
    countOccs "APP_ROOT=\"$\x7bHOME\x7d/.butterfly-bot\"" launcherBotd = 1 ∧
    countOccs "mkdir -p \"$\x7bAPP_ROOT\x7d\" \"$\x7bAPP_ROOT\x7d/data\"" launcherBot = 1 ∧
    countOccs "mkdir -p \"$\x7bAPP_ROOT\x7d\" \"$\x7bAPP_ROOT\x7d/data\"" launcherBotd = 1 ∧
    countOccs "ln -sfn \"#\x7bpkgshare\x7d\" \"$\x7bAPP_ROOT\x7d/wasm\"" launcherBot = 1 ∧
    countOccs "ln -sfn \"#\x7bpkgshare\x7d\" \"$\x7bAPP_ROOT\x7d/wasm\"" launcherBotd = 1 ∧
    countOccs "      exec " launcherBot = 1 ∧
    countOccs "      exec " launcherBotd = 1 ∧
    countOccs "--db" launcherBotd = 1 ∧
    countOccs "--db" launcherBot = 0 := by
  refine ⟨?_, by decide, by decide, by decide, by decide, by decide, by decide,
    by decide, by decide, by decide, by decide, by decide, by decide⟩
  simp [render_formula, segTail, segBody, String.append_assoc]

/-- The 64-character checksum of the end-to-end example (64 times `a`). -/
def exampleChecksum : String :=
  "aaaaaaaaaaaaaaaaaaaaaaaaaaaaaaaaaaaaaaaaaaaaaaaaaaaaaaaaaaaaaaaa"

/-- The end-to-end example rendering of the spec. -/
def exampleRender : String :=
  render_formula "1.2.3" "https://example.com/release.tar.gz" exampleChecksum

/-- C6: for version `1.2.3`, url `https://example.com/release.tar.gz` and a
checksum of 64 `a` characters, the output contains the url line, the
sha256 line and the version line each exactly once, and contains no
occurrence of `1.2.3` other than the one in the version field. -/
theorem render_example_end_to_end :
    countOccs "  url \"https://example.com/release.tar.gz\"\n" exampleRender = 1 ∧
    countOccs ("  sha256 \"" ++ exampleChecksum ++ "\"\n") exampleRender = 1 ∧
    countOccs "  version \"1.2.3\"\n" exampleRender = 1 ∧
    countOccs "1.2.3" exampleRender = 1 :=
  ⟨by decide, by decide, by decide, by decide⟩

/-- C7: when any of the four required CLI arguments is missing, the
formula-generator CLI exits non-zero with an error report and performs no
filesystem write: `mainFormula` reaches its single write only in the
success branch of argument parsing. -/
theorem main_missing_arg_no_write (a : CliArgs)
    (h : a.version = none ∨ a.url = none ∨ a.sha256 = none ∨ a.output = none) :
    exitCode (mainFormula a) ≠ 0 ∧ ∀ w : FsWrite, mainFormula a ≠ Except.ok w := by
  obtain ⟨e, he⟩ : ∃ e, parseArgs a = Except.error e := by
    obtain ⟨v, u, s, o⟩ := a
    rcases v with _ | v
    · exact ⟨"the following arguments are required: --version", rfl⟩
    rcases u with _ | u
    · exact ⟨"the following arguments are required: --url", rfl⟩
    rcases s with _ | s
    · exact ⟨"the following arguments are required: --sha256", rfl⟩
    rcases o with _ | o
    · exact ⟨"the following arguments are required: --output", rfl⟩
    · simp at h
  refine ⟨?_, ?_⟩
  · simp [mainFormula, he, exitCode]
  · intro w
    simp [mainFormula, he]

/-- Witness for C7: a concrete invocation with `--version` missing. -/
theorem main_missing_arg_no_write_witness :
    exitCode (mainFormula ⟨none, some "https://example.com/x.tar.gz",
      some "0abc", some "Formula/butterfly-bot.rb"⟩) ≠ 0 ∧
    ∀ w : FsWrite,
      mainFormula ⟨none, some "https://example.com/x.tar.gz",
        some "0abc", some "Formula/butterfly-bot.rb"⟩ ≠ Except.ok w :=
  main_missing_arg_no_write
    ⟨none, some "https://example.com/x.tar.gz",
      some "0abc", some "Formula/butterfly-bot.rb"⟩ (Or.inl rfl)

/-- C8: when the fixed source icon path does not exist, the icon pipeline
fails with an error that names the missing path and produces zero output
files — the existence check precedes every directory creation and write,
so the error branch carries no write at all. -/
theorem icons_missing_source_error (src : PILImage) :
    generate_icons false src =
      Except.error ("Missing source icon: " ++ sourceIconPath) ∧
    strOccurs sourceIconPath ("Missing source icon: " ++ sourceIconPath) ∧
    ∀ (outs : List SavedIcon) (report : String),
      generate_icons false src ≠ Except.ok (outs, report) := by
  refine ⟨rfl, ?_, ?_⟩
  · exact strOccurs_append_right _ _ _ List.infix_rfl
  · intro outs report hcontra
    simp [generate_icons] at hcontra

/-- The outputs the icon pipeline produces on any existing source image:
one square RGBA PNG per target size at the size-named path.  (Used to
state C9; that the pipeline produces exactly this list is the first
conjunct of the theorem.) -/
def iconExpectedOutputs : List SavedIcon :=
  iconSizes.map (fun size =>
    { path := iconOutputPath size
      image := { width := size, height := size, mode := "RGBA" }
      format := "PNG" })

/-- The summary line the icon pipeline prints on success. -/
def iconReport : String :=
  "Generated " ++ toString iconSizes.length ++ " icon sizes from " ++
    sourceIconPath

/-- C9: for an existing source image of any dimensions, the icon pipeline
produces exactly 8 output files, one per target edge length in
16, 24, 32, 48, 64, 128, 256, 512, each a square RGBA image saved as PNG
at the size-named path `assets/icons/hicolor/<size>x<size>/apps/butterfly-bot.png`,
and reports the count of sizes generated. -/
theorem icons_eight_square_outputs (src : PILImage) :
    generate_icons true src = Except.ok (iconExpectedOutputs, iconReport) ∧
    iconExpectedOutputs.length = 8 ∧
    iconExpectedOutputs.map (fun f => f.image.width) =
      [16, 24, 32, 48, 64, 128, 256, 512] ∧
    iconExpectedOutputs.map (fun f => f.path) =
      ["assets/icons/hicolor/16x16/apps/butterfly-bot.png",
       "assets/icons/hicolor/24x24/apps/butterfly-bot.png",
       "assets/icons/hicolor/32x32/apps/butterfly-bot.png",
       "assets/icons/hicolor/48x48/apps/butterfly-bot.png",
       "assets/icons/hicolor/64x64/apps/butterfly-bot.png",
       "assets/icons/hicolor/128x128/apps/butterfly-bot.png",
       "assets/icons/hicolor/256x256/apps/butterfly-bot.png",
       "assets/icons/hicolor/512x512/apps/butterfly-bot.png"] ∧
    (∀ f ∈ iconExpectedOutputs, f.image.height = f.image.width ∧
      f.image.mode = "RGBA" ∧ f.format = "PNG" ∧
      f.path = iconOutputPath f.image.width) ∧
    iconReport = "Generated 8 icon sizes from assets/icon.png" := by
  refine ⟨rfl, by decide, by decide, by decide, by decide, by decide⟩

/-- C10: the two embedded launcher-script bodies are character-for-character
identical except for their final exec line: both consist of the same
shared body (shebang, `set -euo pipefail` prologue, home-directory
bootstrap, wasm symlink maintenance, `BUTTERFLY_BOT_DB` export with the
same default database path) followed by an exec line, and only the exec'd
binary name and the daemon's extra `--db` argument differ. -/
theorem launchers_identical_except_exec :
    launcherBot = launcherCommon ++ execLineBot ∧
    launcherBotd = launcherCommon ++ execLineBotd ∧
    countOccs "#!/bin/bash\n" launcherCommon = 1 ∧
    countOccs "set -euo pipefail\n" launcherCommon = 1 ∧
    countOccs "APP_ROOT=\"$\x7bHOME\x7d/.butterfly-bot\"\n" launcherCommon = 1 ∧
    countOccs "mkdir -p \"$\x7bAPP_ROOT\x7d\" \"$\x7bAPP_ROOT\x7d/data\"\n" launcherCommon = 1 ∧
    countOccs "ln -sfn \"#\x7bpkgshare\x7d\" \"$\x7bAPP_ROOT\x7d/wasm\"\n" launcherCommon = 1 ∧
    countOccs "export BUTTERFLY_BOT_DB=\"$\x7bBUTTERFLY_BOT_DB:-$\x7bAPP_ROOT\x7d/data/butterfly-bot.db\x7d\"\n"
      launcherCommon = 1 ∧
    execLineBot = "      exec \"#\x7blibexec\x7d/butterfly-bot\" \"$@\"\n" ∧
    execLineBotd = "      exec \"#\x7blibexec\x7d/butterfly-botd\" --db \"$\x7bBUTTERFLY_BOT_DB\x7d\" \"$@\"\n" ∧
    countOccs "--db" execLineBotd = 1 ∧
    countOccs "--db" execLineBot = 0 := by
  refine ⟨?_, ?_, by decide, by decide, by decide, by decide, by decide,
    by decide, rfl, rfl, by decide, by decide⟩
  · simp [launcherBot, launcherCommon, execLineBot, String.append_assoc]
  · simp [launcherBotd, launcherCommon, execLineBotd, String.append_assoc]
